import Mathlib

/-!
Verification of the usb-creator KDE front-end
(`src/usbcreator/frontends/kde/frontend.py`) against its natural-language
specification.  Each Python function relevant to a claim is shallowly
embedded as an executable Lean definition; Qt widget state is made
explicit as record fields, and the cross-thread event queue becomes a
list processed front-to-back.  Definitions come first, then the lemmas
and the claim theorems.
-/

namespace UsbCreator

/-! ## Event queue (`thread_wrap`, `test_func`, lines 44-49 and 100-106)

`queue = Queue()` is a single shared FIFO.  `thread_wrap(func)` returns a
wrapper that, when called from the backend thread, does
`queue.put(lambda: func(*args))` — and therefore returns the result of
`queue.put`, which is Python `None`.  The consumer side is `test_func`,
polled every 500 ms by the `queue_processor` timer: if the queue is
non-empty it pops exactly one entry, calls it with `func()` on its own
line (discarding the returned value), and marks the task done. -/

/-- Backend-thread events marshalled through the queue: one constructor per
`thread_wrap`-decorated front-end callback. -/
inductive Event where
  | progressEvent (complete : Int)
  | progressMessage (message : String)
  | failureEvent (message : Option String)
  | successEvent
  | retryRequest (message : String)
  deriving DecidableEq, Repr

/-- Publication of one event by a backend-thread callback: the body of the
wrapper produced by `thread_wrap` is `queue.put(lambda: func(*args))`, and
`Queue.put` appends at the tail of the FIFO. -/
def publish (q : List Event) (e : Event) : List Event :=
  q ++ [e]

/-- One poll of `test_func` (the 500 ms `queue_processor` tick): if the queue
is non-empty, `queue.get_nowait()` removes the head entry, which is then
executed.  Returns the remaining queue and the event executed this tick,
if any. -/
def tick : List Event → List Event × Option Event
  | [] => ([], none)
  | e :: rest => (rest, some e)

/-- Running the consumer for `n` polls: returns the remaining queue and the
list of executed events, in execution order. -/
def run : List Event → Nat → List Event × List Event
  | q, 0 => (q, [])
  | q, n + 1 =>
    match tick q with
    | (q₁, none) => let r := run q₁ n; (r.1, r.2)
    | (q₁, some e) => let r := run q₁ n; (r.1, e :: r.2)

/-- Publishing a whole list of events in order, starting from queue `q`. -/
def publishAll (q : List Event) (l : List Event) : List Event :=
  l.foldl publish q

/-! ## The `retry` callback (lines 449, 484-495)

`KdeFrontend.retry` is decorated with `@thread_wrap`, so the function the
backend stores as `retry_cb` is the wrapper, not the dialog body. -/

/-- Qt message-box answer buttons. -/
inductive MsgButton where
  | yes
  | no
  deriving DecidableEq, Repr

/-- Body of `KdeFrontend.retry` as written (lines 484-495), without the
surrounding `thread_wrap`: shows a Yes/No warning dialog and evaluates
`res == QMessageBox.Yes`. -/
def retry_body (userChoice : MsgButton) : Bool :=
  userChoice == MsgButton.yes

/-- The queue entry `lambda: func(*args)` that `thread_wrap` enqueues for a
`retry` call: when the consumer later invokes it, it shows the dialog and
produces `res == QMessageBox.Yes` — a value the bare `func()`
statement in `test_func` drops. -/
def retry_thunk (userChoice : MsgButton) : Unit → Bool :=
  fun _ => retry_body userChoice

/-- What the backend actually invokes: `retry_cb = self.retry`, where
`retry` is the `thread_wrap` wrapper.  The call enqueues the dialog thunk
and returns the result of `queue.put`, which is Python `None` (modelled
`none : Option Bool`); the yes/no decision of the caller plays no part in the
value handed back to the backend. -/
def retry_cb (q : List Event) (message : String) : List Event × Option Bool :=
  (publish q (Event.retryRequest message), none)

/-! ## The progress handler (lines 182-192, 449-457) -/

/-- Displayed state of the `QProgressDialog` created in `__initUI` with
range 0..100. -/
structure ProgressBar where
  hidden : Bool
  value : Int
  label : String
  deriving DecidableEq, Repr

/-- Label text set when progress reaches 100 (line 457). -/
def finishingMessage : String := "Finishing..."

/-- Body of `KdeFrontend.progress(complete)` (lines 449-457), run by the
queue consumer: when the dialog is visible, caps `complete` at 100, sets
the capped value as the dialog value via `setValue(int(complete))`, and if
the capped value equals 100 switches the label to `finishingMessage`. -/
def progress (bar : ProgressBar) (complete : Int) : ProgressBar :=
  if bar.hidden then bar
  else
    let c := if complete > 100 then 100 else complete
    if c = 100 then { bar with value := c, label := finishingMessage }
    else { bar with value := c }

/-! ## `update_target` (lines 342-369) -/

/-- Target writability status, the `usbcreator.misc` constants. -/
inductive Status where
  | UNKNOWN
  | CAN_USE
  | CANNOT_USE
  deriving DecidableEq, Repr

/-- Source type, the `usbcreator.misc` constants (the `type` field of a
backend source record). -/
inductive SourceType where
  | SOURCE_ISO
  | SOURCE_IMG
  | SOURCE_DEVICE
  deriving DecidableEq, Repr

/-- Message shown when the selected target cannot hold the image (line 366). -/
def notLargeEnoughMessage : String :=
  "The device is not large enough to hold this image."

/-- The pieces of main-window state that `update_target` mutates: the start
(install) button and the destination status line. -/
structure InstallControls where
  startEnabled : Bool
  destStatus : String
  deriving DecidableEq, Repr

/-- Python truthiness of `get_current_source()` at line 356
(`if not source: return`): falsy for both `None` and the empty string. -/
def sourceTruthy : Option String → Bool
  | none => false
  | some s => s != ""

/-- `KdeFrontend.update_target` (lines 342-369), restricted to the state it
mutates.  `status` is the status field of `backend.targets[udi]`, `source` the
current source, `stype` the `type` field of that source.  After the early return on a
falsy source, the start button is enabled iff `status == misc.CAN_USE` or
the button is already enabled and the source type is `misc.SOURCE_IMG`;
the destination status message is set for `CANNOT_USE` and cleared
otherwise.  The `itemChanged.emit` scan (lines 343-351) only re-emits a Qt
signal and changes no modelled state. -/
def update_target (st : InstallControls) (status : Status)
    (source : Option String) (stype : SourceType) : InstallControls :=
  if sourceTruthy source = false then st
  else
    { startEnabled :=
        (status == Status.CAN_USE) ||
          (st.startEnabled && stype == SourceType.SOURCE_IMG),
      destStatus :=
        if status = Status.CANNOT_USE then notLargeEnoughMessage else "" }

/-! ## Tree-widget rows and the add/remove handlers
(lines 262-272, 274-306, 308-318, 393-420) -/

/-- One row of a `QTreeWidget`: the `Qt.UserRole` data of column 0 (the
backend id), the visible texts of columns 0 and 1, and the optional
per-cell widget that `setItemWidget` / `removeItemWidget` manage (this
front-end never sets one).  The size column (column 2, a
`misc.format_size` rendering) appears in no claim and is not modelled. -/
structure TreeItem where
  data0 : String
  text0 : String
  text1 : String
  cellWidget0 : Option Unit := none
  deriving DecidableEq, Repr

/-- `QTreeWidget.removeItemWidget(item, 0)`: clears the widget previously
set on the cell with `setItemWidget`.  The row itself stays in the tree. -/
def removeItemWidget0 (it : TreeItem) : TreeItem :=
  { it with cellWidget0 := none }

/-- `KdeFrontend.remove_source` (lines 308-318) on the rows of
`ui_source_list`: scans for the first row whose `Qt.UserRole` data equals
`source` and calls `removeItemWidget(item, 0)` on it, then `break`s.  The
current-item fixup (lines 315-318) touches selection only, not the row
list. -/
def remove_source (items : List TreeItem) (source : String) : List TreeItem :=
  match items with
  | [] => []
  | it :: rest =>
    if it.data0 = source then removeItemWidget0 it :: rest
    else it :: remove_source rest source

/-- `KdeFrontend.remove_target` (lines 262-272) on the rows of
`ui_dest_list`: scans for the first row whose `Qt.UserRole` data equals
`target` and removes it with `takeTopLevelItem(i)`, then `break`s.  The
current-item fixup (lines 269-272) touches selection only. -/
def remove_target (items : List TreeItem) (target : String) : List TreeItem :=
  match items with
  | [] => []
  | it :: rest =>
    if it.data0 = target then rest
    else it :: remove_target rest target

/-- Metadata record held in the backend `sources` mapping for one id. -/
structure SourceInfo where
  device : String
  label : String
  size : Nat
  stype : SourceType
  deriving DecidableEq, Repr

/-- Python `str.strip()`: removes leading and trailing whitespace. -/
def pyStrip (s : String) : String :=
  String.mk
    (((s.toList.dropWhile Char.isWhitespace).reverse.dropWhile
        Char.isWhitespace).reverse)

/-- State of the source-selection pane plus the front-end fields and
backend calls that `add_file_source_dialog` / `add_source` touch. -/
structure SourcePane where
  items : List TreeItem
  current : Option Nat
  recently_added_image : Option String
  addImageCalls : List String
  deriving DecidableEq, Repr

/-- `KdeFrontend.add_source(source)` (lines 274-306): appends a new row
whose `Qt.UserRole` data and initial text are the backend id `source`; if
no row is current, the first row becomes current (lines 284-288); the
visible columns are then populated from `backend.sources[source]` —
column 0 the `device` string, column 1 the `label` stripped of
surrounding whitespace (line 296, "Strip as some derivates like to have
whitespaces/newlines") — and finally, iff the row was recently added by
`add_file_source_dialog` (its `device` equals `recently_added_image`,
lines 301-306), the new row becomes current and the marker is cleared.
`none` models the `KeyError` Python raises when the id is missing from
the mapping; the `sources` mapping is returned alongside, untouched,
because the function only reads it (`self.__backend` is always set when
this callback fires). -/
def add_source (sources : List (String × SourceInfo)) (st : SourcePane)
    (source : String) : Option (SourcePane × List (String × SourceInfo)) :=
  let newIndex := st.items.length
  let item0 : TreeItem := { data0 := source, text0 := source, text1 := "" }
  let items₁ := st.items ++ [item0]
  let current₁ :=
    match st.current with
    | some i => some i
    | none => if 0 < items₁.length then some 0 else none
  match sources.lookup source with
  | none => none
  | some info =>
    let items₂ :=
      items₁.set newIndex
        { item0 with text0 := info.device, text1 := pyStrip info.label }
    if st.recently_added_image = some info.device then
      some ({ st with items := items₂, current := some newIndex,
                      recently_added_image := none }, sources)
    else
      some ({ st with items := items₂, current := current₁ }, sources)

/-- `KdeFrontend.add_file_source_dialog` (lines 393-420), with the result of
the file dialog passed in as `filename` (the empty string models a
cancelled dialog).  Clears the auto-select marker first (line 394),
returns on an empty name (lines 409-410), re-selects the first existing
row whose column-0 text equals `filename` without contacting the backend
(lines 413-417), and otherwise records the name in
`recently_added_image` and calls `backend.add_image(filename)`
(lines 419-420). -/
def add_file_source_dialog (st : SourcePane) (filename : String) :
    SourcePane :=
  let st₀ := { st with recently_added_image := none }
  if filename = "" then st₀
  else
    match st₀.items.findIdx? (fun it => it.text0 == filename) with
    | some i => { st₀ with current := some i }
    | none =>
      { st₀ with recently_added_image := some filename,
                 addImageCalls := st₀.addImageCalls ++ [filename] }

/-! ## `install` (lines 422-447) -/

/-- Notification text of line 446. -/
def selectBothMessage : String :=
  "You must select both source image and target device first."

/-- Observable outcome of one `KdeFrontend.install` invocation. -/
structure InstallResult where
  notifiedMsg : Option String
  backendInstallCalled : Bool
  failExited : Bool
  deriving DecidableEq, Repr

/-- `KdeFrontend.install` (lines 422-447): `source` and `target` are the
results of `get_source` / `get_target` (the empty string when nothing is
selected, lines 320-340), `confirmYes` the answer to the are-you-sure
message box, `backendRaises` whether `backend.install` raises.  With
either selection empty the method only calls `self.notify(message)`; with
both present it asks for confirmation, returns if declined, and otherwise
calls `backend.install`, routing any exception to `__fail` (error dialog
and `sys.exit(1)`). -/
def install (source target : String) (confirmYes : Bool)
    (backendRaises : Bool) : InstallResult :=
  if source ≠ "" ∧ target ≠ "" then
    if confirmYes = false then
      { notifiedMsg := none, backendInstallCalled := false,
        failExited := false }
    else if backendRaises then
      { notifiedMsg := none, backendInstallCalled := true,
        failExited := true }
    else
      { notifiedMsg := none, backendInstallCalled := true,
        failExited := false }
  else
    { notifiedMsg := some selectBothMessage, backendInstallCalled := false,
      failExited := false }

/-! ## Timers (lines 216-233, 110, 435-436) -/

/-- A `QTimer`.  The front-end only observes whether it is active and with
which interval it was started. -/
structure Timer where
  active : Bool
  interval : Nat
  deriving DecidableEq, Repr

/-- `KdeFrontend.add_timeout(interval, func, *args)` (lines 216-225):
creates a `QTimer`, connects it, and calls `timer.start(interval)`,
returning the now-active timer.  The `update_free` refresh loop is
`add_timeout 2000` (line 110). -/
def add_timeout (interval : Nat) : Timer :=
  { active := true, interval := interval }

/-- `KdeFrontend.delete_timeout(timer)` (lines 227-233): returns `False`
without touching an active timer; only an already-inactive timer reaches
`timer.stop()` (a no-op) and the `True` return. -/
def delete_timeout (timer : Timer) : Timer × Bool :=
  if timer.active then (timer, false)
  else ({ timer with active := false }, true)

/-! ## Source-chooser visibility in `__initUI` (lines 63-69, 139-143) -/

/-- Visibility of the three source-selection widgets that `__initUI` may
hide; all start visible in the loaded `.ui` file. -/
structure SourceChooserUI where
  ui_source_list_visible : Bool
  ui_add_source_visible : Bool
  source_label_visible : Bool
  deriving DecidableEq, Repr

/-- Python identity comparison of `self.__img` against the empty-string literal (line 140, `is not`): an identity comparison
against the interned empty-string literal.  `None` and every non-empty
string compare as distinct objects; the interned empty string itself does not.  Modelled
structurally: `true` unless `img` is `some ""`. -/
def img_is_not_empty_str : Option String → Bool
  | none => true
  | some s => s != ""

/-- The source-chooser part of `KdeFrontend.__initUI` (lines 139-143):
hides `ui_source_list`, `ui_add_source` and `source_label` whenever
the identity comparison holds (`img_is_not_empty_str`), which includes the default `img=None` from
`__init__` (line 63). -/
def initUI_sourceChooser (img : Option String) : SourceChooserUI :=
  if img_is_not_empty_str img then
    { ui_source_list_visible := false, ui_add_source_visible := false,
      source_label_visible := false }
  else
    { ui_source_list_visible := true, ui_add_source_visible := true,
      source_label_visible := true }

/-! ## Helper lemmas -/

theorem publishAll_eq (q l : List Event) : publishAll q l = q ++ l := by
  induction l generalizing q with
  | nil => simp [publishAll]
  | cons e rest ih =>
    simp only [publishAll, List.foldl_cons] at *
    rw [ih (publish q e)]
    simp [publish]

theorem run_eq (q : List Event) (n : Nat) :
    run q n = (q.drop n, q.take n) := by
  induction n generalizing q with
  | zero => simp [run]
  | succ n ih =>
    cases q with
    | nil => simp [run, tick, ih]
    | cons e rest => simp [run, tick, ih]

theorem set_append_singleton {α : Type} (l : List α) (a b : α) :
    (l ++ [a]).set l.length b = l ++ [b] := by
  induction l with
  | nil => rfl
  | cons x xs ih => simp [List.set, ih]

theorem progress_value_eq (bar : ProgressBar) (c : Int)
    (hvis : bar.hidden = false) :
    (progress bar c).value = min c 100 := by
  simp only [progress, hvis, Bool.false_eq_true, if_false]
  split_ifs <;> simp <;> omega

theorem progress_label_eq (bar : ProgressBar) (c : Int)
    (hvis : bar.hidden = false) (hc : 100 ≤ c) :
    (progress bar c).label = finishingMessage := by
  simp only [progress, hvis, Bool.false_eq_true, if_false]
  split_ifs with h1 h2 <;> first | rfl | omega

/-! ## Claim theorems -/

/-- C1: the claim fails on the code.  Because `retry` is decorated with
`thread_wrap`, the callback the backend invokes only enqueues the dialog
thunk and hands back the result of `queue.put` — Python `None` — never a
boolean reflecting the Yes/No choice.  The dialog body does compute
`res == QMessageBox.Yes` when the consumer later runs the thunk, but that
value is dropped by `test_func`; nothing flows back to the backend. -/
theorem retry_cb_discards_decision :
    (retry_cb [] "Failed to write; retry?").2 = none ∧
    (retry_cb [] "Failed to write; retry?").1 =
      [Event.retryRequest "Failed to write; retry?"] ∧
    retry_thunk MsgButton.yes () = true ∧
    retry_thunk MsgButton.no () = false :=
  ⟨rfl, rfl, rfl, rfl⟩

/-- C2: every backend-thread event published through `thread_wrap` lands in
the single shared FIFO, and the polling consumer executes queued events in
publish order without dropping any: after `n` polls exactly the first `n`
published events have run, in order, and after one poll per event the
queue is empty with the executed sequence equal to the published one. -/
theorem queue_fifo_no_drop (l : List Event) (n : Nat) :
    (run (publishAll [] l) n).2 = l.take n ∧
    (run (publishAll [] l) l.length).2 = l ∧
    (run (publishAll [] l) l.length).1 = [] := by
  simp [publishAll_eq, run_eq]

/-- C3: with the progress dialog visible and a backend-supplied percentage
(non-negative by §4.4 of the spec), the displayed value lies in [0,100];
any input above 100 displays as exactly 100; from 100 on, the label
becomes the Finishing message; the handler is monotone, so a
non-decreasing input sequence displays non-decreasingly, and input 100
displays exactly 100. -/
theorem progress_display_spec (bar : ProgressBar) (c : Int)
    (hvis : bar.hidden = false) (hc : 0 ≤ c) :
    0 ≤ (progress bar c).value ∧ (progress bar c).value ≤ 100 ∧
    (100 < c → (progress bar c).value = 100) ∧
    (100 ≤ c → (progress bar c).label = finishingMessage) ∧
    (∀ c₂ : Int, c ≤ c₂ →
      (progress bar c).value ≤ (progress bar c₂).value) ∧
    (progress bar 100).value = 100 := by
  refine ⟨?_, ?_, ?_, ?_, ?_, ?_⟩
  · rw [progress_value_eq bar c hvis]; omega
  · rw [progress_value_eq bar c hvis]; omega
  · intro h; rw [progress_value_eq bar c hvis]; omega
  · intro h; exact progress_label_eq bar c hvis h
  · intro c₂ h
    rw [progress_value_eq bar c hvis, progress_value_eq bar c₂ hvis]; omega
  · rw [progress_value_eq bar 100 hvis]; omega

/-- Witness for `progress_display_spec`: visible dialog, input 150. -/
theorem progress_display_spec_witness :
    (progress ⟨false, 0, ""⟩ 150).value = 100 ∧
    (progress ⟨false, 0, ""⟩ 150).label = finishingMessage ∧
    (progress ⟨false, 0, ""⟩ 100).value = 100 :=
  ⟨(progress_display_spec ⟨false, 0, ""⟩ 150 rfl (by decide)).2.2.1
      (by decide),
   (progress_display_spec ⟨false, 0, ""⟩ 150 rfl (by decide)).2.2.2.1
      (by decide),
   (progress_display_spec ⟨false, 0, ""⟩ 150 rfl (by decide)).2.2.2.2.2⟩

/-- C4: with a truthy current source, `update_target` enables the start
button iff the status of the target is `CAN_USE`, or the button is already
enabled and the selected source has type `SOURCE_IMG` (the permissive
image-type fallback); the destination status message reads the
not-large-enough text exactly when the status is `CANNOT_USE`, and is
cleared otherwise. -/
theorem update_target_spec (st : InstallControls) (status : Status)
    (source : Option String) (stype : SourceType)
    (h : sourceTruthy source = true) :
    ((update_target st status source stype).startEnabled = true ↔
      (status = Status.CAN_USE ∨
        (st.startEnabled = true ∧ stype = SourceType.SOURCE_IMG))) ∧
    ((update_target st status source stype).destStatus =
      if status = Status.CANNOT_USE then notLargeEnoughMessage else "") := by
  simp [update_target, h]

/-- Witness for `update_target_spec`: a `CAN_USE` target enables a
previously disabled button; a `CANNOT_USE` target sets the message. -/
theorem update_target_spec_witness :
    (update_target ⟨false, ""⟩ Status.CAN_USE (some "u.iso")
        SourceType.SOURCE_ISO).startEnabled = true ∧
    (update_target ⟨true, ""⟩ Status.CANNOT_USE (some "u.iso")
        SourceType.SOURCE_ISO).destStatus = notLargeEnoughMessage :=
  ⟨(update_target_spec ⟨false, ""⟩ Status.CAN_USE (some "u.iso")
      SourceType.SOURCE_ISO (by decide)).1.mpr (Or.inl rfl),
   by
    have h := (update_target_spec ⟨true, ""⟩ Status.CANNOT_USE
      (some "u.iso") SourceType.SOURCE_ISO (by decide)).2
    simpa using h⟩

/-- C5: the claim fails on the code for sources.  `remove_target` really
removes the matching row (`takeTopLevelItem`), but `remove_source` only
calls `QTreeWidget.removeItemWidget`, which detaches a per-cell widget and
leaves the row in place, so the removed id is still listed after the
removal event is processed. -/
theorem remove_source_leaves_row :
    (remove_source [⟨"/path/a.iso", "/path/a.iso", "Ubuntu", none⟩]
        "/path/a.iso").map TreeItem.data0 = ["/path/a.iso"] ∧
    remove_target [⟨"/dev/sdb", "/dev/sdb", "", none⟩] "/dev/sdb" = [] := by
  constructor <;> rfl

/-- C7: an install request never silently no-ops — with either selection
empty, `install` notifies with the fixed message and never calls
`backend.install`; with both selections present, the user confirming, and
`backend.install` raising, the backend is called and the `__fail` path
(error dialog and exit) runs rather than the error being ignored. -/
theorem install_never_silently_noops (source target : String)
    (confirmYes backendRaises : Bool) :
    ((source = "" ∨ target = "") →
      install source target confirmYes backendRaises =
        { notifiedMsg := some selectBothMessage,
          backendInstallCalled := false, failExited := false }) ∧
    (source ≠ "" → target ≠ "" → confirmYes = true → backendRaises = true →
      (install source target confirmYes backendRaises).failExited = true ∧
      (install source target confirmYes
          backendRaises).backendInstallCalled = true) := by
  constructor
  · intro h
    have hn : ¬(source ≠ "" ∧ target ≠ "") := by tauto
    simp [install, hn]
  · intro h1 h2 h3 h4
    simp [install, h1, h2, h3, h4]

/-- Witness for `install_never_silently_noops`: no source selected. -/
theorem install_never_silently_noops_witness :
    install "" "/dev/sdb" true false =
      { notifiedMsg := some selectBothMessage,
        backendInstallCalled := false, failExited := false } :=
  (install_never_silently_noops "" "/dev/sdb" true false).1 (Or.inl rfl)

/-- C9: `delete_timeout` returns `True` only for an already-inactive
timer; every active timer is left running with result `False` — in
particular the 2000 ms `update_free` loop (`add_timeout 2000`) that
`install` attempts to delete stays active and keeps firing. -/
theorem delete_timeout_spec (t : Timer) :
    (t.active = true → delete_timeout t = (t, false)) ∧
    (t.active = false →
      delete_timeout t = ({ t with active := false }, true)) ∧
    (delete_timeout (add_timeout 2000)).1.active = true ∧
    (delete_timeout (add_timeout 2000)).1.interval = 2000 ∧
    (delete_timeout (add_timeout 2000)).2 = false := by
  refine ⟨?_, ?_, rfl, rfl, rfl⟩ <;> intro h <;> simp [delete_timeout, h]

/-- Witness for `delete_timeout_spec`: the active 2000 ms refresh timer. -/
theorem delete_timeout_spec_witness :
    delete_timeout { active := true, interval := 2000 } =
      ({ active := true, interval := 2000 }, false) :=
  (delete_timeout_spec { active := true, interval := 2000 }).1 rfl

/-- C10: the source chooser (list, add button, label) is hidden exactly
when the `img` constructor argument is not the empty string — in
particular for the default `img=None`, even though no image was provided —
and all three widgets share that visibility; it shows only for an `img`
equal to the empty-string literal. -/
theorem initUI_sourceChooser_spec (img : Option String) :
    ((initUI_sourceChooser img).ui_source_list_visible = true ↔
      img = some "") ∧
    initUI_sourceChooser none =
      { ui_source_list_visible := false, ui_add_source_visible := false,
        source_label_visible := false } ∧
    (initUI_sourceChooser img).ui_add_source_visible =
      (initUI_sourceChooser img).ui_source_list_visible ∧
    (initUI_sourceChooser img).source_label_visible =
      (initUI_sourceChooser img).ui_source_list_visible := by
  refine ⟨?_, rfl, ?_, ?_⟩
  · cases img with
    | none => simp [initUI_sourceChooser, img_is_not_empty_str]
    | some s =>
      by_cases hs : s = "" <;>
        simp [initUI_sourceChooser, img_is_not_empty_str, hs]
  · unfold initUI_sourceChooser; split <;> rfl
  · unfold initUI_sourceChooser; split <;> rfl

/-- C6: adding an image path that is already listed is idempotent — the
dialog re-selects the first row whose displayed text equals the filename
and never calls `backend.add_image`, leaving the row list unchanged —
while a genuinely new path is forwarded to `add_image` exactly once, and
the subsequent `source_added` event auto-selects the freshly appended row
and clears the marker. -/
theorem add_file_source_dialog_idempotent (st : SourcePane)
    (filename : String) (hne : filename ≠ "") :
    (∀ i, st.items.findIdx? (fun it => it.text0 == filename) = some i →
      (add_file_source_dialog st filename).items = st.items ∧
      (add_file_source_dialog st filename).addImageCalls =
        st.addImageCalls ∧
      (add_file_source_dialog st filename).current = some i) ∧
    (st.items.findIdx? (fun it => it.text0 == filename) = none →
      (add_file_source_dialog st filename).items = st.items ∧
      (add_file_source_dialog st filename).addImageCalls =
        st.addImageCalls ++ [filename] ∧
      ∀ sources info, sources.lookup filename = some info →
        info.device = filename →
        add_source sources (add_file_source_dialog st filename) filename =
          some ({ items := st.items ++
                    [⟨filename, info.device, pyStrip info.label, none⟩],
                  current := some st.items.length,
                  recently_added_image := none,
                  addImageCalls := st.addImageCalls ++ [filename] },
                sources)) := by
  constructor
  · intro i hidx
    simp [add_file_source_dialog, hne, hidx]
  · intro hidx
    refine ⟨?_, ?_, ?_⟩
    · simp [add_file_source_dialog, hne, hidx]
    · simp [add_file_source_dialog, hne, hidx]
    · intro sources info hlk hdev
      simp [add_file_source_dialog, hne, hidx, add_source, hlk, hdev,
            set_append_singleton]

/-- Witness for `add_file_source_dialog_idempotent`: re-adding the listed
`a.iso` changes nothing and calls no backend; adding the fresh `b.iso`
issues one `add_image` call and the arriving `source_added` selects it. -/
theorem add_file_source_dialog_idempotent_witness :
    (add_file_source_dialog
        ⟨[⟨"a.iso", "a.iso", "", none⟩], some 0, none, []⟩
        "a.iso").addImageCalls = [] ∧
    (add_file_source_dialog
        ⟨[⟨"a.iso", "a.iso", "", none⟩], some 0, none, []⟩
        "a.iso").items = [⟨"a.iso", "a.iso", "", none⟩] ∧
    add_source [("b.iso", ⟨"b.iso", "Netrunner", 7, SourceType.SOURCE_IMG⟩)]
        (add_file_source_dialog ⟨[], none, none, []⟩ "b.iso") "b.iso" =
      some (⟨[⟨"b.iso", "b.iso", "Netrunner", none⟩], some 0, none,
              ["b.iso"]⟩,
            [("b.iso", ⟨"b.iso", "Netrunner", 7,
                SourceType.SOURCE_IMG⟩)]) := by
  refine ⟨?_, ?_, ?_⟩
  · exact ((add_file_source_dialog_idempotent
      ⟨[⟨"a.iso", "a.iso", "", none⟩], some 0, none, []⟩ "a.iso"
      (by decide)).1 0 rfl).2.1
  · exact ((add_file_source_dialog_idempotent
      ⟨[⟨"a.iso", "a.iso", "", none⟩], some 0, none, []⟩ "a.iso"
      (by decide)).1 0 rfl).1
  · have h := ((add_file_source_dialog_idempotent ⟨[], none, none, []⟩
      "b.iso" (by decide)).2 rfl).2.2
      [("b.iso", ⟨"b.iso", "Netrunner", 7, SourceType.SOURCE_IMG⟩)]
      ⟨"b.iso", "Netrunner", 7, SourceType.SOURCE_IMG⟩ rfl rfl
    exact h.trans (by decide)

/-- C8: `add_source` strips the label of a source only for display — the
visible column-1 text of the freshly appended row is the stripped label,
while the backend `sources` mapping is handed back untouched, its stored
label unmodified. -/
theorem add_source_trims_display_only
    (sources : List (String × SourceInfo)) (st : SourcePane)
    (source : String) (info : SourceInfo)
    (h : sources.lookup source = some info) :
    ∃ st₂, add_source sources st source = some (st₂, sources) ∧
      st₂.items.getLast? =
        some ⟨source, info.device, pyStrip info.label, none⟩ := by
  simp only [add_source, h, set_append_singleton]
  split_ifs with hr hlen
  · refine ⟨_, rfl, ?_⟩
    simp [List.getLast?_concat]
  · refine ⟨_, rfl, ?_⟩
    simp [List.getLast?_concat]
  · exact absurd (by simp) hlen

/-- Witness for `add_source_trims_display_only`: a label with surrounding
whitespace displays stripped while the mapping keeps it intact. -/
theorem add_source_trims_display_only_witness :
    (add_source
        [("u.iso", ⟨"u.iso", " Ubuntu \n", 9, SourceType.SOURCE_ISO⟩)]
        ⟨[], none, none, []⟩ "u.iso").map
      (fun p => (p.1.items.getLast?.map TreeItem.text1, p.2)) =
      some (some "Ubuntu",
            [("u.iso", ⟨"u.iso", " Ubuntu \n", 9,
                SourceType.SOURCE_ISO⟩)]) := by
  obtain ⟨st₂, h1, h2⟩ :=
    add_source_trims_display_only
      [("u.iso", ⟨"u.iso", " Ubuntu \n", 9, SourceType.SOURCE_ISO⟩)]
      ⟨[], none, none, []⟩ "u.iso"
      ⟨"u.iso", " Ubuntu \n", 9, SourceType.SOURCE_ISO⟩ rfl
  rw [h1]
  simp only [Option.map_some']
  rw [h2]
  decide

end UsbCreator
